import Mathlib

/-!
# Verification of the Daylight Mirror native receiver

A shallow embedding of `src/android/app/src/main/cpp/mirror_native.c`:
the stream demultiplexer, the sequence-gap accounting, the receive-buffer
growth policy, the frame feeder and the decoder lifecycle manager, together
with theorems settling the specification claims about them.

Machine integers are modelled as `Nat` with explicit reduction modulo
`2 ^ 32` where the C code's `uint32_t` arithmetic wraps; bytes are `Nat`
values below 256; the bitwise operators `|||`, `&&&`, `<<<`, `>>>` are
translated literally from the C `|`, `&`, `<<`, `>>`.
-/

namespace Mirror

/-- Reduction modulo `2 ^ 32`: the value of a C `uint32_t` expression. -/
def u32 (n : Nat) : Nat := n % 4294967296

/-- `uint32_t` subtraction `a - b` (wrapping). -/
def sub32 (a b : Nat) : Nat := (a + 4294967296 - u32 b) % 4294967296

/-- The value of a C cast `(int)` applied to a `uint32_t` expression
(two's-complement reinterpretation, as on the target platform). -/
def toInt32 (n : Nat) : Int :=
  if u32 n < 2147483648 then (u32 n : Int) else (u32 n : Int) - 4294967296

/-! ## Sequence-gap accounting (`decode_thread`, lines 407-412)

```c
if (has_last_seq && seq != last_seq + 1) {
    int gap = (int)(seq - last_seq - 1);
    if (gap > 0 && gap < 1000) dropped_frames += gap;
}
last_seq = seq;
has_last_seq = 1;
```
-/

/-- The per-connection sequence-tracking state of `decode_thread`:
`last_seq`, `has_last_seq` and the `dropped_frames` counter. -/
structure SeqState where
  last_seq : Nat
  has_last_seq : Bool
  dropped_frames : Int
deriving Repr, DecidableEq

/-- One header's worth of the gap-accounting code in `decode_thread`
(lines 407-412), applied to the parsed sequence number `seq`. -/
def seq_step (st : SeqState) (seq : Nat) : SeqState :=
  let dropped :=
    if st.has_last_seq ∧ seq ≠ u32 (st.last_seq + 1) then
      let gap : Int := toInt32 (sub32 (sub32 seq st.last_seq) 1)
      if 0 < gap ∧ gap < 1000 then st.dropped_frames + gap else st.dropped_frames
    else st.dropped_frames
  { last_seq := seq, has_last_seq := true, dropped_frames := dropped }

/-- The sequence tracker state at the start of a connection
(`decode_thread` lines 310-312). -/
def seq_init : SeqState := { last_seq := 0, has_last_seq := false, dropped_frames := 0 }

/-- Process a list of frame sequence numbers from the start of a connection. -/
def run_seq (seqs : List Nat) : SeqState := seqs.foldl seq_step seq_init

example : (run_seq [5, 6, 8, 9]).dropped_frames = 1 := by decide
example : (run_seq [5, 900, 901]).dropped_frames = 894 := by decide
example : (run_seq [5, 1500, 1501]).dropped_frames = 0 := by decide

/-- A contiguous gap `g` (computed mod `2 ^ 32`) with `0 < g < 1000` adds
exactly `g` to `dropped_frames`. -/
lemma seq_step_gap_small (st : SeqState) (seq g : Nat)
    (hl : st.has_last_seq = true) (hg : sub32 (sub32 seq st.last_seq) 1 = g)
    (h0 : 0 < g) (h1 : g < 1000) :
    (seq_step st seq).dropped_frames = st.dropped_frames + g := by
  have hne : seq ≠ u32 (st.last_seq + 1) := by
    unfold sub32 at hg
    unfold u32 at hg ⊢
    omega
  have hgM : g < 4294967296 := by
    unfold sub32 at hg
    omega
  have htoi : toInt32 g = (g : Int) := by
    unfold toInt32 u32
    rw [Nat.mod_eq_of_lt hgM, if_pos (by omega)]
  simp only [seq_step, hl, true_and, hg, htoi]
  rw [if_pos hne, if_pos (by exact_mod_cast And.intro h0 h1)]

/-- A contiguous gap `g ≥ 1000` (computed mod `2 ^ 32`) leaves
`dropped_frames` unchanged: the `(int)` cast makes `gap` either `≥ 1000`
or negative, and neither passes `0 < gap && gap < 1000`. -/
lemma seq_step_gap_large (st : SeqState) (seq g : Nat)
    (hg : sub32 (sub32 seq st.last_seq) 1 = g) (h1 : 1000 ≤ g) :
    (seq_step st seq).dropped_frames = st.dropped_frames := by
  have hgM : g < 4294967296 := by
    unfold sub32 at hg
    omega
  have hcond : ¬(0 < toInt32 g ∧ toInt32 g < 1000) := by
    unfold toInt32 u32
    rw [Nat.mod_eq_of_lt hgM]
    by_cases hbig : g < 2147483648
    · rw [if_pos hbig]
      intro hc
      have := hc.2
      omega
    · rw [if_neg hbig]
      intro hc
      have := hc.1
      omega
  by_cases hl : st.has_last_seq = true
  · by_cases hne : seq = u32 (st.last_seq + 1)
    · simp [seq_step, hne]
    · simp only [seq_step, hl, true_and, hg]
      rw [if_pos hne, if_neg hcond]
  · have hl' : st.has_last_seq = false := by
      cases h : st.has_last_seq
      · rfl
      · exact absurd h hl
    simp [seq_step, hl']

/-- **C5**: for every pair of consecutive video-frame sequence numbers with a
contiguous gap `g` (computed mod `2 ^ 32`) satisfying `0 < g < 1000`, the
`dropped_frames` counter increases by exactly `g`; in particular, processing
the sequence numbers `[5, 6, 8, 9]` increases the gap counter by exactly 1. -/
theorem C5_small_gap_adds_exactly_gap :
    (∀ (st : SeqState) (seq g : Nat), st.has_last_seq = true →
      sub32 (sub32 seq st.last_seq) 1 = g → 0 < g → g < 1000 →
      (seq_step st seq).dropped_frames = st.dropped_frames + g) ∧
    (run_seq [5, 6, 8, 9]).dropped_frames = 1 :=
  ⟨seq_step_gap_small, by decide⟩

/-- Witness for C5: from `last_seq = 6`, frame 8 has contiguous gap 1 and the
counter goes from 0 to 1. -/
theorem C5_small_gap_adds_exactly_gap_witness :
    (seq_step ⟨6, true, 0⟩ 8).dropped_frames = 0 + ((1 : Nat) : Int) :=
  C5_small_gap_adds_exactly_gap.1 ⟨6, true, 0⟩ 8 1 rfl (by decide) (by decide) (by decide)

/-- **C2** counterexample: processing the sequence numbers `[5, 900, 901]` does
NOT leave the gap counter unaffected — the contiguous gap from 5 to 900 is
894, which is below the reset threshold 1000, so `dropped_frames` becomes
894. -/
theorem C2_counterexample : ¬ (run_seq [5, 900, 901]).dropped_frames = 0 := by
  decide

/-- **C2** (amended): for every pair of consecutive video-frame sequence
numbers whose contiguous gap (computed mod `2 ^ 32`) is at least 1000, the
`dropped_frames` counter is unaffected rather than inflated; a reset example
with such a gap, `[5, 1500, 1501]`, leaves the gap counter unaffected, whereas
`[5, 900, 901]` has contiguous gap 894 < 1000 and adds 894 to the counter. -/
theorem C2_large_gap_is_reset :
    (∀ (st : SeqState) (seq g : Nat),
      sub32 (sub32 seq st.last_seq) 1 = g → 1000 ≤ g →
      (seq_step st seq).dropped_frames = st.dropped_frames) ∧
    (run_seq [5, 1500, 1501]).dropped_frames = 0 ∧
    (run_seq [5, 900, 901]).dropped_frames = 894 :=
  ⟨seq_step_gap_large, by decide, by decide⟩

/-- Witness for C2 (amended): from `last_seq = 5`, frame 1500 has contiguous
gap 1494 ≥ 1000 and the counter is unaffected. -/
theorem C2_large_gap_is_reset_witness :
    (seq_step ⟨5, true, 0⟩ 1500).dropped_frames = 0 :=
  C2_large_gap_is_reset.1 ⟨5, true, 0⟩ 1500 1494 (by decide) (by decide)

/-- **C10**: sequence-gap computation is performed modulo `2 ^ 32`: whenever
the new sequence number equals the previous one plus one mod `2 ^ 32` —
including the wrap from `0xFFFFFFFF` to 0 — no drop is added to
`dropped_frames`. -/
theorem C10_contiguous_mod_wrap_no_drop :
    (∀ st : SeqState,
      (seq_step st (u32 (st.last_seq + 1))).dropped_frames = st.dropped_frames) ∧
    (seq_step ⟨4294967295, true, 7⟩ 0).dropped_frames = 7 := by
  constructor
  · intro st
    simp [seq_step]
  · decide

/-- Witness for C10: the wrap `0xFFFFFFFF → 0` adds nothing to the counter. -/
theorem C10_contiguous_mod_wrap_no_drop_witness :
    (seq_step ⟨4294967295, true, 3⟩ (u32 (4294967295 + 1))).dropped_frames = 3 :=
  C10_contiguous_mod_wrap_no_drop.1 ⟨4294967295, true, 3⟩

/-! ## Little-endian 32-bit fields -/

/-- Little-endian 32-bit decode, exactly as `decode_thread` lines 402-405
assemble `seq` and `payload_len` from header bytes:
`b0 | (b1 << 8) | (b2 << 16) | (b3 << 24)`. -/
def decodeLE32 (b0 b1 b2 b3 : Nat) : Nat :=
  b0 ||| (b1 <<< 8) ||| (b2 <<< 16) ||| (b3 <<< 24)

/-- Bitwise-or of a value below `2 ^ k` with a `k`-shifted value is addition. -/
lemma or_shift_eq_add (a b k : Nat) (ha : a < 2 ^ k) : a ||| (b <<< k) = a + 2 ^ k * b := by
  rw [Nat.shiftLeft_eq, mul_comm b (2 ^ k), Nat.lor_comm, ← Nat.mul_add_lt_is_or ha b]
  omega

/-- With genuine bytes in each position, the little-endian decode is the
positional sum. -/
lemma decodeLE32_eq (b0 b1 b2 b3 : Nat) (h0 : b0 < 256) (h1 : b1 < 256)
    (h2 : b2 < 256) :
    decodeLE32 b0 b1 b2 b3 = b0 + 256 * b1 + 65536 * b2 + 16777216 * b3 := by
  unfold decodeLE32
  rw [or_shift_eq_add b0 b1 8 (by omega)]
  rw [or_shift_eq_add _ b2 16 (by norm_num; omega)]
  rw [or_shift_eq_add _ b3 24 (by norm_num; omega)]
  norm_num

/-- The four little-endian bytes of a 32-bit value, as the §6 wire format
serializes `seq` and `len`. -/
def le32_bytes (n : Nat) : List Nat :=
  [n % 256, n / 256 % 256, n / 65536 % 256, n / 16777216 % 256]

/-- Decoding the little-endian bytes of a 32-bit value gives it back. -/
lemma decodeLE32_le32_bytes (n : Nat) (h : n < 4294967296) :
    decodeLE32 (n % 256) (n / 256 % 256) (n / 65536 % 256) (n / 16777216 % 256) = n := by
  rw [decodeLE32_eq _ _ _ _ (Nat.mod_lt _ (by norm_num)) (Nat.mod_lt _ (by norm_num))
    (Nat.mod_lt _ (by norm_num))]
  omega

/-! ## Acknowledgments (`send_ack`, lines 96-105) -/

/-- The 6-byte acknowledgment packet assembled by `send_ack`:
`DA 7A` followed by the sequence number, one byte at a time via
`(seq >> 8*i) & 0xFF`. -/
def send_ack (seq : Nat) : List Nat :=
  [0xDA, 0x7A, seq &&& 0xFF, (seq >>> 8) &&& 0xFF,
   (seq >>> 16) &&& 0xFF, (seq >>> 24) &&& 0xFF]

/-- Masking with `0xFF` is reduction mod 256. -/
lemma and_255_eq_mod (x : Nat) : x &&& 255 = x % 256 := by
  have h := Nat.and_pow_two_sub_one_eq_mod x 8
  norm_num at h
  exact h

/-- The sequence number an acknowledgment packet carries in its bytes 2-5
(little-endian, §6 wire format). -/
def ack_seq (p : List Nat) : Nat :=
  match p with
  | [_, _, a2, a3, a4, a5] => decodeLE32 a2 a3 a4 a5
  | _ => 0

/-- `send_ack seq` carries exactly `seq` for every 32-bit `seq`. -/
lemma ack_seq_send_ack (seq : Nat) (h : seq < 4294967296) :
    ack_seq (send_ack seq) = seq := by
  simp only [send_ack, ack_seq, Nat.shiftRight_eq_div_pow, and_255_eq_mod]
  norm_num
  exact decodeLE32_le32_bytes seq h

/-! ## Frame Feeder (`feed_nal`, lines 205-257)

```c
static int feed_nal(const uint8_t *data, size_t len, int is_idr, uint32_t seq, int sock, ...) {
    AMediaCodec *codec = g_codec;
    if (!codec) { ...; return 0; }
    ssize_t input_idx = AMediaCodec_dequeueInputBuffer(codec, 2000);
    if (input_idx < 0) { ...; send_ack(sock, seq); return 1; }
    uint8_t *input_buf = AMediaCodec_getInputBuffer(codec, input_idx, &buf_size);
    if (!input_buf || len > buf_size) { ...; send_ack(sock, seq); return 1; }
    memcpy(input_buf, data, len);
    AMediaCodec_queueInputBuffer(...);
    ... drain outputs ...
    send_ack(sock, seq);
    return 1;
}
```
-/

/-- What the decoder offers for one `feed_nal` call: either
`AMediaCodec_dequeueInputBuffer` returns a negative index (timeout), or it
yields a slot whose `AMediaCodec_getInputBuffer` pointer may be null
(`bufOk = false`) and whose capacity is `bufSize`. -/
inductive InputSlot where
  | timeout : InputSlot
  | slot (bufOk : Bool) (bufSize : Nat) : InputSlot
deriving Repr, DecidableEq

/-- Outcome of one `feed_nal` call: the C return value (`false` models the
fatal-error return 0, `true` models 1), the acknowledgment packets written to
the socket, and whether the payload was queued to the decoder. -/
structure FeedOutcome where
  result : Bool
  acks : List (List Nat)
  submitted : Bool
deriving Repr, DecidableEq

/-- `feed_nal`: feed one NAL unit of `payload` with sequence number `seq`
into the decoder `codec` (`none` models `g_codec == NULL`), against the
decoder behaviour `input`. -/
def feed_nal (codec : Option Nat) (input : InputSlot) (payload : List Nat)
    (is_idr : Bool) (seq : Nat) : FeedOutcome :=
  match codec with
  | none => { result := false, acks := [], submitted := false }
  | some _ =>
    match input with
    | .timeout => { result := true, acks := [send_ack seq], submitted := false }
    | .slot bufOk bufSize =>
      if bufOk = false ∨ payload.length > bufSize then
        { result := true, acks := [send_ack seq], submitted := false }
      else
        { result := true, acks := [send_ack seq], submitted := true }

/-- `decode_thread`'s reaction to `feed_nal`'s return value (lines 431-435):
a zero return breaks out of the receive loop, which closes the socket and
reconnects. -/
def loop_continues_after_feed (o : FeedOutcome) : Bool := o.result

/-- **C1** counterexample: a `feed_nal` call with no decoder installed is NOT
a no-op success — at the concrete input (payload `[0xAA]`, seq 7) it returns
the fatal-error value 0 and the receive loop tears the connection down. -/
theorem C1_counterexample :
    ¬ ((feed_nal none .timeout [170] false 7).result = true ∧
       loop_continues_after_feed (feed_nal none .timeout [170] false 7) = true) := by
  decide

/-- **C1** (amended): every call to `feed_nal` made while no decoder instance
is installed returns the fatal-error value 0, sends no acknowledgment,
submits nothing to a decoder, and causes `decode_thread` to break out of the
receive loop, tearing down the connection and reconnecting. -/
theorem C1_feed_without_decoder_is_fatal :
    ∀ (input : InputSlot) (payload : List Nat) (is_idr : Bool) (seq : Nat),
      feed_nal none input payload is_idr seq =
        { result := false, acks := [], submitted := false } ∧
      loop_continues_after_feed (feed_nal none input payload is_idr seq) = false := by
  intro input payload is_idr seq
  exact ⟨rfl, rfl⟩

/-- Witness for C1 (amended): a concrete feed with no decoder installed is
fatal, unacknowledged, and breaks the receive loop. -/
theorem C1_feed_without_decoder_is_fatal_witness :
    feed_nal none .timeout [170] false 7 =
      { result := false, acks := [], submitted := false } ∧
    loop_continues_after_feed (feed_nal none .timeout [170] false 7) = false :=
  C1_feed_without_decoder_is_fatal .timeout [170] false 7

/-- **C3**: for every video-frame packet processed with a decoder installed,
`feed_nal` sends exactly one acknowledgment, and that acknowledgment carries
the frame's sequence number — including the input-slot-timeout and
slot-too-small cases where the frame is skipped rather than decoded. -/
theorem C3_exactly_one_ack_per_frame :
    ∀ (d : Nat) (input : InputSlot) (payload : List Nat) (is_idr : Bool) (seq : Nat),
      seq < 4294967296 →
      (feed_nal (some d) input payload is_idr seq).acks = [send_ack seq] ∧
      ack_seq (send_ack seq) = seq := by
  intro d input payload is_idr seq hseq
  refine ⟨?_, ack_seq_send_ack seq hseq⟩
  cases input with
  | timeout => rfl
  | slot bufOk bufSize =>
    by_cases h : bufOk = false ∨ payload.length > bufSize
    · simp [feed_nal, h]
    · simp [feed_nal, h]

/-- Witness for C3: with a decoder installed and an input-slot timeout at
seq 9, exactly one acknowledgment is sent and it carries 9. -/
theorem C3_exactly_one_ack_per_frame_witness :
    (feed_nal (some 1) .timeout [170] true 9).acks = [send_ack 9] ∧
    ack_seq (send_ack 9) = 9 :=
  C3_exactly_one_ack_per_frame 1 .timeout [170] true 9 (by decide)

/-! ## Decoder Lifecycle Manager (`create_decoder`, lines 157-191)

```c
static int create_decoder(ANativeWindow *window, uint32_t width, uint32_t height) {
    AMediaCodec *codec = build_decoder(window, width, height);
    if (!codec) {
        pthread_mutex_lock(&g_codec_mutex);
        AMediaCodec *old = g_codec;
        g_codec = NULL;
        pthread_mutex_unlock(&g_codec_mutex);
        if (old) {
            AMediaCodec_stop(old); AMediaCodec_delete(old);
            codec = build_decoder(window, width, height);
        }
    }
    if (!codec) return 0;
    pthread_mutex_lock(&g_codec_mutex);
    if (g_codec) { AMediaCodec_stop(g_codec); AMediaCodec_delete(g_codec); }
    g_codec = codec;
    g_frame_w = width; g_frame_h = height;
    pthread_mutex_unlock(&g_codec_mutex);
    return 1;
}
```
-/

/-- The decoder-related global state: `g_codec` (decoder instances are
abstract tokens), `g_frame_w` and `g_frame_h`. -/
structure NativeState where
  g_codec : Option Nat
  g_frame_w : Nat
  g_frame_h : Nat
deriving Repr, DecidableEq

/-- Outcome of one `create_decoder` call: the C return value, the global
state afterwards, the instances stopped and released, and how many times
`build_decoder` was invoked. -/
structure CreateOutcome where
  success : Bool
  state : NativeState
  released : List Nat
  build_attempts : Nat
deriving Repr, DecidableEq

/-- `create_decoder`, with `build n` the outcome of the `n`-th
`build_decoder` call of this invocation (`none` = configure or start
failed). -/
def create_decoder (st : NativeState) (width height : Nat)
    (build : Nat → Option Nat) : CreateOutcome :=
  match build 1 with
  | some codec =>
    { success := true
      state := { g_codec := some codec, g_frame_w := width, g_frame_h := height }
      released := st.g_codec.toList
      build_attempts := 1 }
  | none =>
    match st.g_codec with
    | some old =>
      match build 2 with
      | some codec =>
        { success := true
          state := { g_codec := some codec, g_frame_w := width, g_frame_h := height }
          released := [old]
          build_attempts := 2 }
      | none =>
        { success := false
          state := { st with g_codec := none }
          released := [old]
          build_attempts := 2 }
    | none =>
      { success := false
        state := { st with g_codec := none }
        released := []
        build_attempts := 1 }

/-- **C4**: whenever the initial decoder configuration fails, the
previously-held instance (if any) is stopped and released and configuration
is retried exactly once (a second `build_decoder` call happens exactly when
a prior instance existed); if the retry also fails, `create_decoder`
reports failure and leaves no decoder installed. -/
theorem C4_configure_failure_retries_once (st : NativeState) (width height : Nat)
    (build : Nat → Option Nat) (h1 : build 1 = none) :
    ((create_decoder st width height build).released = st.g_codec.toList ∧
     (create_decoder st width height build).build_attempts =
       if st.g_codec.isSome then 2 else 1) ∧
    (build 2 = none →
      (create_decoder st width height build).success = false ∧
      (create_decoder st width height build).state.g_codec = none) := by
  unfold create_decoder
  rw [h1]
  cases hc : st.g_codec with
  | none => simp
  | some old =>
    cases hb2 : build 2 with
    | none => simp [hb2]
    | some c => simp [hb2]

/-- Witness for C4: a held instance 5, both build attempts failing — the old
instance is released, two attempts are made, the call fails and no decoder
is left installed. -/
theorem C4_configure_failure_retries_once_witness :
    (create_decoder ⟨some 5, 1024, 768⟩ 640 480 (fun _ => none)).released = [5] ∧
    (create_decoder ⟨some 5, 1024, 768⟩ 640 480 (fun _ => none)).build_attempts = 2 ∧
    (create_decoder ⟨some 5, 1024, 768⟩ 640 480 (fun _ => none)).success = false ∧
    (create_decoder ⟨some 5, 1024, 768⟩ 640 480 (fun _ => none)).state.g_codec = none := by
  have h := C4_configure_failure_retries_once ⟨some 5, 1024, 768⟩ 640 480
    (fun _ => none) rfl
  exact ⟨h.1.1, h.1.2, (h.2 rfl).1, (h.2 rfl).2⟩

/-! ## Resolution commands (`decode_thread`, lines 332-365) -/

/-- What handling one resolution command produces: the state afterwards,
whether `create_decoder` was invoked, whether the host was sent an
orientation hint, and whether the receive loop breaks (it never does on this
path — the code falls through to `continue`). -/
structure ResolutionOutcome where
  state : NativeState
  recreated : Bool
  orientation_notified : Bool
  loop_breaks : Bool
deriving Repr, DecidableEq

/-- The resolution-command branch of `decode_thread` (lines 336-365): the
parsed 16-bit dimensions are validated with
`new_w > 0 && new_h > 0 && new_w <= 4096 && new_h <= 4096`; only valid
dimensions recreate the decoder (when a window exists) and raise the
orientation hint; in every case the loop continues with the next packet. -/
def handle_resolution (st : NativeState) (has_window : Bool) (new_w new_h : Nat)
    (build : Nat → Option Nat) : ResolutionOutcome :=
  if 0 < new_w ∧ 0 < new_h ∧ new_w ≤ 4096 ∧ new_h ≤ 4096 then
    if has_window then
      { state := (create_decoder st new_w new_h build).state
        recreated := true
        orientation_notified := true
        loop_breaks := false }
    else
      { state := st
        recreated := false
        orientation_notified := true
        loop_breaks := false }
  else
    { state := st
      recreated := false
      orientation_notified := false
      loop_breaks := false }

/-- **C6**: every resolution command whose width or height is 0 or exceeds
4096 is silently ignored: no decoder recreation, no error, no state change,
and the receive loop continues with the next packet. -/
theorem C6_invalid_resolution_silently_ignored (st : NativeState)
    (has_window : Bool) (new_w new_h : Nat) (build : Nat → Option Nat)
    (hinv : new_w = 0 ∨ new_h = 0 ∨ new_w > 4096 ∨ new_h > 4096) :
    handle_resolution st has_window new_w new_h build =
      { state := st
        recreated := false
        orientation_notified := false
        loop_breaks := false } := by
  unfold handle_resolution
  rw [if_neg]
  intro hval
  rcases hval with ⟨hw, hh, hw4, hh4⟩
  omega

/-- Witness for C6: a 0 × 768 resolution command against a live decoder is a
complete no-op. -/
theorem C6_invalid_resolution_silently_ignored_witness :
    handle_resolution ⟨some 3, 1024, 768⟩ true 0 768 (fun _ => some 9) =
      { state := ⟨some 3, 1024, 768⟩
        recreated := false
        orientation_notified := false
        loop_breaks := false } :=
  C6_invalid_resolution_silently_ignored ⟨some 3, 1024, 768⟩ true 0 768
    (fun _ => some 9) (Or.inl rfl)

/-! ## Receive-buffer growth (`decode_thread`, lines 414-428)

```c
if (payload_len > g_nal_buf_capacity) {
    uint8_t *new_buf = (uint8_t *)realloc(g_nal_buf, payload_len);
    if (!new_buf) { LOGE(...); break; }
    g_nal_buf = new_buf;
    g_nal_buf_capacity = payload_len;
}
if (read_exact(sock, g_nal_buf, (int)payload_len) < 0) { ...; break; }
```
-/

/-- The buffer-growth step for one video frame: grow the buffer when
`payload_len` exceeds the current capacity; a failed `realloc`
(`alloc_ok = false`) breaks the receive loop (`none` — the connection is
torn down and the payload is never read). `some c` is the capacity in
effect when `read_exact` then writes the payload into the buffer. -/
def grow_buffer (capacity payload_len : Nat) (alloc_ok : Bool) : Option Nat :=
  if payload_len > capacity then
    if alloc_ok then some payload_len else none
  else
    some capacity

/-- The payload read of line 425 at the level of buffer writes: the write
into `g_nal_buf` happens only after a successful growth check, so it occurs
exactly when `grow_buffer` returns a capacity; `some (c, n)` records the
capacity `c` of the buffer at the moment `n = payload_len` bytes are written
into it. -/
def frame_buffer_write (capacity payload_len : Nat) (alloc_ok : Bool) :
    Option (Nat × Nat) :=
  match grow_buffer capacity payload_len alloc_ok with
  | some c => some (c, payload_len)
  | none => none

/-- Run the buffer-growth step over the successive frames of a worker
lifetime (`frames` lists each frame's payload length with whether `realloc`
would succeed for it). -/
def run_grow (capacity : Nat) (frames : List (Nat × Bool)) : Option Nat :=
  match frames with
  | [] => some capacity
  | (len, ok) :: rest =>
    match grow_buffer capacity len ok with
    | some c => run_grow c rest
    | none => none

/-- One growth step never shrinks the buffer. -/
lemma grow_buffer_mono (capacity payload_len : Nat) (alloc_ok : Bool) (c : Nat)
    (h : grow_buffer capacity payload_len alloc_ok = some c) : capacity ≤ c := by
  unfold grow_buffer at h
  by_cases hgt : payload_len > capacity
  · rw [if_pos hgt] at h
    cases alloc_ok with
    | false => simp at h
    | true =>
      simp at h
      omega
  · rw [if_neg hgt] at h
    simp at h
    omega

/-- Any run of growth steps never shrinks the buffer. -/
lemma run_grow_mono (frames : List (Nat × Bool)) :
    ∀ (capacity c : Nat), run_grow capacity frames = some c → capacity ≤ c := by
  induction frames with
  | nil =>
    intro capacity c h
    simp [run_grow] at h
    omega
  | cons f rest ih =>
    intro capacity c h
    unfold run_grow at h
    cases hg : grow_buffer capacity f.1 f.2 with
    | none => rw [hg] at h; simp at h
    | some c1 =>
      rw [hg] at h
      exact le_trans (grow_buffer_mono _ _ _ _ hg) (ih c1 c h)

/-- **C8**: across every sequence of video-frame payload lengths processed
within one worker-thread lifetime, the receive-buffer capacity never
decreases — after any single frame, and hence after any run of frames, the
capacity is at least its value before. -/
theorem C8_buffer_capacity_never_decreases :
    (∀ (capacity payload_len : Nat) (alloc_ok : Bool) (c : Nat),
      grow_buffer capacity payload_len alloc_ok = some c → capacity ≤ c) ∧
    (∀ (frames : List (Nat × Bool)) (capacity c : Nat),
      run_grow capacity frames = some c → capacity ≤ c) :=
  ⟨grow_buffer_mono, fun frames => run_grow_mono frames⟩

/-- Witness for C8: a 2 MiB buffer across frames of 3 MiB, 1 KiB and 2.5 MiB
ends at 3 MiB capacity, at least its starting value. -/
theorem C8_buffer_capacity_never_decreases_witness :
    2097152 ≤ 3145728 :=
  C8_buffer_capacity_never_decreases.2
    [(3145728, true), (1024, true), (2621440, true)] 2097152 3145728 (by decide)

/-- **C9**: the peer-controlled payload length is bounds-checked before any
buffer write — whenever the payload is written into the receive buffer, the
buffer's capacity at that moment is at least the payload length, and when
growing the buffer fails the loop breaks (tearing down the connection)
before any write happens. -/
theorem C9_payload_bounds_checked_before_write :
    (∀ (capacity payload_len : Nat) (alloc_ok : Bool) (c n : Nat),
      frame_buffer_write capacity payload_len alloc_ok = some (c, n) → n ≤ c) ∧
    (∀ (capacity payload_len : Nat), capacity < payload_len →
      frame_buffer_write capacity payload_len false = none) := by
  constructor
  · intro capacity payload_len alloc_ok c n h
    unfold frame_buffer_write at h
    cases hg : grow_buffer capacity payload_len alloc_ok with
    | none => rw [hg] at h; simp at h
    | some c1 =>
      rw [hg] at h
      simp at h
      unfold grow_buffer at hg
      by_cases hgt : payload_len > capacity
      · rw [if_pos hgt] at hg
        cases alloc_ok with
        | false => simp at hg
        | true =>
          simp at hg
          omega
      · rw [if_neg hgt] at hg
        simp at hg
        omega
  · intro capacity payload_len hlt
    unfold frame_buffer_write grow_buffer
    rw [if_pos hlt]
    rfl

/-- Witness for C9: a 4 MiB payload against a 2 MiB buffer — after a
successful grow the write of 4194304 bytes happens into a 4194304-byte
buffer, and with `realloc` failing no write happens at all. -/
theorem C9_payload_bounds_checked_before_write_witness :
    4194304 ≤ 4194304 ∧ frame_buffer_write 2097152 4194304 false = none :=
  ⟨C9_payload_bounds_checked_before_write.1 2097152 4194304 true 4194304 4194304
    (by decide),
   C9_payload_bounds_checked_before_write.2 2097152 4194304 (by decide)⟩

/-! ## Frame Demultiplexer (`decode_thread`, lines 321-428)

One receive-loop iteration reads a 2-byte magic, classifies the packet,
reads the class-specific header fields, and for video frames reads the
payload. Short reads (`read_exact` failing) and bad magic/type bytes fail
the whole iteration.
-/

/-- A parsed packet, as the receive loop classifies the stream. -/
inductive Packet where
  | videoFrame (flags seq payload_len : Nat) (payload : List Nat) : Packet
  | resolutionCmd (new_w new_h : Nat) : Packet
  | simpleCmd (cmd value : Nat) : Packet
deriving Repr, DecidableEq

/-- `read_exact` (lines 81-90) over a byte list: yield exactly `n` bytes and
the remainder, or fail when the stream ends first. -/
def read_exact (buf : List Nat) (n : Nat) : Option (List Nat × List Nat) :=
  if n ≤ buf.length then some (buf.take n, buf.drop n) else none

/-- One receive-loop iteration's parsing step (`decode_thread` lines
321-428): magic check (`0xDA`, then `0x7F` command / `0x7E` video frame /
anything else fatal), command dispatch on the command-id byte
(`0x04` = resolution, 16-bit little-endian dimensions; any other id carries
one value byte), and the 9-byte video-frame header (flags, 32-bit
little-endian `seq` and `payload_len`) followed by the payload. -/
def parse_packet (buf : List Nat) : Option (Packet × List Nat) :=
  match buf with
  | m0 :: m1 :: rest =>
    if m0 ≠ 0xDA then none
    else if m1 = 0x7F then
      match rest with
      | cmd :: rest1 =>
        if cmd = 0x04 then
          match rest1 with
          | r0 :: r1 :: r2 :: r3 :: rest2 =>
            some (.resolutionCmd (r0 ||| (r1 <<< 8)) (r2 ||| (r3 <<< 8)), rest2)
          | _ => none
        else
          match rest1 with
          | v :: rest2 => some (.simpleCmd cmd v, rest2)
          | _ => none
      | [] => none
    else if m1 ≠ 0x7E then none
    else
      match rest with
      | f :: s0 :: s1 :: s2 :: s3 :: l0 :: l1 :: l2 :: l3 :: rest2 =>
        match read_exact rest2 (decodeLE32 l0 l1 l2 l3) with
        | some (payload, rest3) =>
          some (.videoFrame f (decodeLE32 s0 s1 s2 s3) (decodeLE32 l0 l1 l2 l3)
            payload, rest3)
        | none => none
      | _ => none
  | _ => none

/-- Modelled from the spec: the producer side of the §6 wire format for a
video-frame packet, `0xDA 0x7E ‖ flags(1) ‖ seq(4 LE) ‖ len(4 LE) ‖
payload(len)` — the encoder lives outside this repository. -/
def encode_video_frame (flags seq : Nat) (payload : List Nat) : List Nat :=
  [0xDA, 0x7E, flags] ++ le32_bytes seq ++ le32_bytes payload.length ++ payload

/-- **C7**: for every well-formed video-frame packet encoded per §6
(byte-sized flags, 32-bit sequence number and payload length), the
demultiplexer's parse recovers identical flags, sequence number, payload
length and payload bytes, leaving the rest of the stream untouched —
decoding is a left inverse of encoding. -/
theorem C7_parse_left_inverse_of_encode (flags seq : Nat) (payload rest : List Nat)
    (hf : flags < 256) (hs : seq < 4294967296) (hl : payload.length < 4294967296) :
    parse_packet (encode_video_frame flags seq payload ++ rest) =
      some (.videoFrame flags seq payload.length payload, rest) := by
  have hkeep : flags < 256 := hf
  unfold encode_video_frame le32_bytes
  simp only [List.cons_append, List.nil_append, List.append_assoc]
  simp only [parse_packet]
  norm_num
  rw [decodeLE32_le32_bytes seq hs, decodeLE32_le32_bytes payload.length hl]
  unfold read_exact
  rw [if_pos (by simp)]
  rw [List.take_left, List.drop_left]

/-- Witness for C7: the keyframe packet of the spec's end-to-end scenario,
`flags = 0x01`, `seq = 1`, payload `[AA BB CC DD]`, parses back to itself
with a following byte left in the stream. -/
theorem C7_parse_left_inverse_of_encode_witness :
    parse_packet (encode_video_frame 1 1 [170, 187, 204, 221] ++ [99]) =
      some (.videoFrame 1 1 (List.length [170, 187, 204, 221]) [170, 187, 204, 221],
        [99]) :=
  C7_parse_left_inverse_of_encode 1 1 [170, 187, 204, 221] [99]
    (by decide) (by decide) (by decide)

end Mirror
